import Mathlib

/-!
# go-geo-search: the contract between the HTTP handlers and the search engine

A shallow embedding of `src/api/main.go`.

* The two handlers `createRestaurants` and `searchRestaurants` and the boot-time
  schema step of `main` are state-passing functions.  The engine client
  (`elasticClient` in the source) is external: each of its four operations is a
  parameter that takes the engine state and returns its reply with the next
  state.  Every handler also returns the list of engine calls it made, so that
  "no engine call" and "exactly one call" are statements about that list.
* `c.BindJSON` and `json.Unmarshal` belong to libraries outside the repository
  and are parameters as well.
* A handler that panics is recorded as such; the response is then the one of
  the recovery middleware that `gin.Default()` installs (line 120).
* Go strings are Lean strings.  A Go slice is `Option (List α)`: `none` is the
  nil slice, which JSON renders as `null`, and `some []` is the empty slice.
* `float64` values are only copied by this program; they are carried by their
  bit pattern.
-/

namespace GeoSearch

/-! ## Data model (main.go, lines 17-78) -/

def esIndex : String := "restaurants"

def esType : String := "restaurant"

def mapping : String :=
  "\n" ++
  "\t\x7b\n" ++
  "\t\t\"mappings\": \x7b\n" ++
  "\t\t\t\"restaurant\": \x7b\n" ++
  "\t\t\t\t\"properties\": \x7b\n" ++
  "\t\t\t\t\t\"id\": \x7b\n" ++
  "\t\t\t\t\t\t\"type\": \"text\"\n" ++
  "\t\t\t\t\t\x7d,\n" ++
  "\t\t\t\t\t\"name\": \x7b\n" ++
  "\t\t\t\t\t\t\"type\": \"text\"\n" ++
  "\t\t\t\t\t\x7d,\n" ++
  "\t\t\t\t\t\"url\": \x7b\n" ++
  "\t\t\t\t\t\t\"type\": \"text\"\n" ++
  "\t\t\t\t\t\x7d,\n" ++
  "\t\t\t\t\t\"image_url\": \x7b\n" ++
  "\t\t\t\t\t\t\"type\": \"text\"\n" ++
  "\t\t\t\t\t\x7d,\n" ++
  "\t\t\t\t\t\"address\": \x7b\n" ++
  "\t\t\t\t\t\t\"type\": \"text\"\n" ++
  "\t\t\t\t\t\x7d,\n" ++
  "\t\t\t\t\t\"open\": \x7b\n" ++
  "\t\t\t\t\t\t\"type\": \"boolean\"\n" ++
  "\t\t\t\t\t\x7d,\n" ++
  "\t\t\t\t\t\"rating\": \x7b\n" ++
  "\t\t\t\t\t\t\"type\": \"integer\"\n" ++
  "\t\t\t\t\t\x7d,\n" ++
  "\t\t\t\t\t\"price\": \x7b\n" ++
  "\t\t\t\t\t\t\"type\": \"integer\"\n" ++
  "\t\t\t\t\t\x7d,\n" ++
  "\t\t\t\t\t\"delivery_area\": \x7b\n" ++
  "\t\t\t\t\t\t\"type\": \"geo_shape\", \"tree\":\"quadtree\", \"precision\": \"1m\"\n" ++
  "\t\t\t\t\t\x7d\n" ++
  "\t\t\t\t\x7d\n" ++
  "\t\t\t\x7d\n" ++
  "\t\t\x7d\n" ++
  "\t\x7d\n"

/-- A Go slice: `none` is nil, `some xs` a non-nil slice with elements `xs`. -/
abbrev Slice (α : Type) : Type := Option (List α)

/-- The elements a `range` loop visits; a nil slice has none. -/
def Slice.toList {α : Type} : Slice α → List α
  | none => []
  | some xs => xs

/-- Go `append(s, x)`: the result is never nil. -/
def Slice.append {α : Type} (s : Slice α) (x : α) : Slice α :=
  some (Slice.toList s ++ [x])

/-- An IEEE-754 binary64 value, carried by its bit pattern. -/
structure Float64 where
  bits : Nat
  deriving DecidableEq, Repr

/-- The struct `DeliveryArea`; the Go field `Type` is spelled `Typ` here. -/
structure DeliveryArea where
  Typ : String
  Coordinates : Slice (Slice (Slice Float64))
  deriving DecidableEq, Repr

structure Restaurant where
  ID : String
  Name : String
  URL : String
  ImageURL : String
  Address : String
  Open : Bool
  Tags : Slice String
  FoodTags : Slice String
  Price : Int
  Rating : Int
  DeliveryArea : DeliveryArea
  deriving DecidableEq, Repr

/-- The JSON names of the fields of `Restaurant`, from its struct tags. -/
def restaurantFields : List String :=
  ["id", "name", "url", "image_url", "address", "open", "tags", "food_tags",
   "price", "rating", "delivery_area"]

/-- The zero value of `Restaurant`, what `var restaurant Restaurant` holds. -/
def Restaurant.zero : Restaurant :=
  { ID := "", Name := "", URL := "", ImageURL := "", Address := "", Open := false,
    Tags := none, FoodTags := none, Price := 0, Rating := 0,
    DeliveryArea := { Typ := "", Coordinates := none } }

structure Result where
  Restaurants : Slice Restaurant
  deriving DecidableEq, Repr

/-! ## The HTTP response and the engine client -/

def StatusOK : Nat := 200

def StatusBadRequest : Nat := 400

def StatusInternalServerError : Nat := 500

/-- What a handler writes as the response body. -/
inductive Body where
  | empty
  | error (err : String)
  | result (r : Result)
  deriving DecidableEq, Repr

structure Response where
  code : Nat
  body : Body
  deriving DecidableEq, Repr

/-- The entry `elastic.NewBulkIndexRequest().Id(id).Doc(doc)`. -/
structure BulkIndexRequest where
  Id : String
  Doc : Restaurant
  deriving DecidableEq, Repr

/-- The reply of a bulk call that did not return an error: the engine reports
per entry whether it failed (document key and HTTP status). -/
structure BulkResponse where
  Took : Nat
  Errors : Bool
  Items : List (String × Nat)
  deriving DecidableEq, Repr

/-- One entry of `result.Hits.Hits`.  `Source` is the pointer `*json.RawMessage`
to the stored document as raw JSON: `none` is the nil pointer of a hit that the
engine returned without its source. -/
structure SearchHit where
  Id : String
  Source : Option String
  deriving DecidableEq, Repr

/-- The calls the program makes on the engine client. -/
inductive EngineCall where
  | indexExists (index : String)
  | createIndex (index : String) (body : String)
  | bulk (index : String) (typ : String) (requests : List BulkIndexRequest)
  | search (index : String) (query : String)
  deriving DecidableEq, Repr

/-- `IndexExists(index).Do(ctx)`: Go returns the pair `(exists, err)`. -/
abbrev IndexExistsDo (σ : Type) : Type := String → σ → (Bool × Option String) × σ

/-- `CreateIndex(index).BodyString(body).Do(ctx)`: only the error is used. -/
abbrev CreateIndexDo (σ : Type) : Type := String → String → σ → Option String × σ

/-- `Bulk().Index(index).Type(typ)` with the added requests, then `Do(ctx)`. -/
abbrev BulkDo (σ : Type) : Type :=
  String → String → List BulkIndexRequest → σ → Except String BulkResponse × σ

/-- `Search().Index(index).Query(RawStringQuery(query)).Do(ctx)`. -/
abbrev SearchDo (σ : Type) : Type :=
  String → String → σ → Except String (List SearchHit) × σ

/-- `c.BindJSON(&restaurants)` on the request body: the decoded slice or an error. -/
abbrev BindJSON : Type := String → Except String (Slice Restaurant)

/-- `json.Unmarshal(data, &v)`: the value `v` points to afterwards, and the error. -/
abbrev Unmarshal : Type := String → Restaurant → Restaurant × Option String

/-- What a handler did: the response of the request, the engine calls in order,
the engine state, and whether the handler ended in a panic. -/
structure Outcome (σ : Type) where
  response : Response
  calls : List EngineCall
  state : σ
  panicked : Bool := false

def handleError (code : Nat) (err : String) : Response :=
  { code := code, body := Body.error err }

/-- The answer of the recovery middleware of `gin.Default()` (line 120) to a
handler that panicked: status 500 and no body. -/
def recoveredResponse : Response :=
  { code := 500, body := Body.empty }

/-! ## Schema step of `main` (lines 105-118) -/

/-- What the boot-time schema step did; `logged` are the errors passed to `log.Println`. -/
structure SchemaOutcome (σ : Type) where
  calls : List EngineCall
  logged : List String
  state : σ

def logErr : Option String → List String
  | none => []
  | some e => [e]

def ensureIndex {σ : Type} (IndexExists : IndexExistsDo σ) (CreateIndex : CreateIndexDo σ)
    (s : σ) : SchemaOutcome σ :=
  let r := IndexExists esIndex s
  let found := r.1.1
  let err := r.1.2
  if !found then
    let r2 := CreateIndex esIndex mapping r.2
    { calls := [EngineCall.indexExists esIndex, EngineCall.createIndex esIndex mapping],
      logged := logErr err ++ logErr r2.1,
      state := r2.2 }
  else
    { calls := [EngineCall.indexExists esIndex], logged := logErr err, state := r.2 }

/-! ## createRestaurants (lines 138-176) -/

/-- The loop of lines 151-167: one index request per record, added in order. -/
def bulkRequests (restaurants : Slice Restaurant) : List BulkIndexRequest :=
  (Slice.toList restaurants).foldl
    (fun bulk restaurant =>
      let r : Restaurant :=
        { ID := restaurant.ID,
          Name := restaurant.Name,
          URL := restaurant.URL,
          ImageURL := restaurant.ImageURL,
          Address := restaurant.Address,
          Open := restaurant.Open,
          Tags := restaurant.Tags,
          FoodTags := restaurant.FoodTags,
          Price := restaurant.Price,
          Rating := restaurant.Rating,
          DeliveryArea := restaurant.DeliveryArea }
      bulk ++ [{ Id := r.ID, Doc := r }])
    []

def createRestaurants {σ : Type} (Bulk : BulkDo σ) (bind : BindJSON) (body : String)
    (s : σ) : Outcome σ :=
  match bind body with
  | Except.error _ =>
    { response := handleError StatusBadRequest "Invalid JSON", calls := [], state := s }
  | Except.ok restaurants =>
    let bulk := bulkRequests restaurants
    match Bulk esIndex esType bulk s with
    | (Except.error _, s1) =>
      { response := handleError StatusBadRequest "Restaurant creation failed",
        calls := [EngineCall.bulk esIndex esType bulk], state := s1 }
    | (Except.ok _, s1) =>
      { response := { code := StatusOK, body := Body.empty },
        calls := [EngineCall.bulk esIndex esType bulk], state := s1 }

/-! ## searchRestaurants (lines 178-242) -/

def searchFormat : String :=
  "\x7b\n" ++
  "\t\t\"bool\" : \x7b\n" ++
  "\t\t\t\"must\" : \x7b\n" ++
  "\t\t\t\t\"multi_match\" : \x7b \"query\": \"%[3]s\", \"fields\": [\"name\", \"tags\"]\x7d\n" ++
  "\t\t\t\x7d,\n" ++
  "\t\t\t\"filter\" : \x7b\n" ++
  "\t\t\t\t\"geo_shape\" : \x7b\n" ++
  "\t\t\t\t\t\"delivery_area\": \x7b\n" ++
  "\t\t\t\t\t\t\"shape\": \x7b\n" ++
  "\t\t\t\t\t\t\t\"type\": \"point\",\n" ++
  "\t\t\t\t\t\t\t\"coordinates\": [%[1]s, %[2]s]\n" ++
  "\t\t\t\t\t\t\x7d,\n" ++
  "\t\t\t\t\t\t\"relation\": \"intersects\"\n" ++
  "\t\t\t\t\t\x7d\n" ++
  "\t\t\t\t\x7d\n" ++
  "\t\t\t\x7d\n" ++
  "\t\t\x7d\n" ++
  "\t\x7d"

/-- The operand of an explicit-index verb `%[n]s`: the n-th argument, counted from 1. -/
def sprintfArg (n : Nat) (args : List String) : List Char :=
  match n, args[n - 1]? with
  | 0, _ => "%!s(BADINDEX)".data
  | _ + 1, some a => a.data
  | _ + 1, none => "%!s(BADINDEX)".data

/-- The argument index when the text starts with a verb `%[d]s`, `d` one digit. -/
def verbIndex : List Char → Option Nat
  | '%' :: '[' :: d :: ']' :: 's' :: _ => if d.isDigit then some (d.toNat - 48) else none
  | _ => none

/-- The scan of a format: a verb `%[d]s` is replaced by its argument, written as
it is, and every other character is copied.  `skip` counts the characters of a
verb still to be passed over. -/
def sprintfChars : Nat → List Char → List String → List Char
  | _, [], _ => []
  | skip + 1, _ :: rest, args => sprintfChars skip rest args
  | 0, c :: rest, args =>
    match verbIndex (c :: rest) with
    | some n => sprintfArg n args ++ sprintfChars 4 rest args
    | none => c :: sprintfChars 0 rest args

/-- Go `fmt.Sprintf`, for formats whose only verbs are explicit-index string
verbs `%[d]s` (the one format of this program is of that kind). -/
def Sprintf (format : String) (args : List String) : String :=
  ⟨sprintfChars 0 format.data args⟩

/-- The raw query string `s` of lines 196-213. -/
def searchQuery (lat lng searchTerm : String) : String :=
  Sprintf searchFormat [lat, lng, searchTerm]

/-- The runtime error of dereferencing a nil pointer. -/
def nilDereference : String :=
  "runtime error: invalid memory address or nil pointer dereference"

/-- The body of the loop of lines 231-235, after the hits before it: `*hit.Source`
is dereferenced, which panics on a nil pointer; otherwise the document is
decoded into a fresh zero value, the error of `json.Unmarshal` is not looked
at, and the value is appended.  `Except.error` is the panic, which ends the
handler. -/
def appendHit (unmarshal : Unmarshal) (acc : Except String (Slice Restaurant))
    (hit : SearchHit) : Except String (Slice Restaurant) :=
  match acc with
  | Except.error e => Except.error e
  | Except.ok restaurants =>
    match hit.Source with
    | none => Except.error nilDereference
    | some data =>
      let restaurant := (unmarshal data Restaurant.zero).1
      Except.ok (Slice.append restaurants restaurant)

/-- The loop of lines 229-235 over the hits, from `make([]Restaurant, 0)`. -/
def mapHits (unmarshal : Unmarshal) (hits : List SearchHit) : Except String (Slice Restaurant) :=
  hits.foldl (appendHit unmarshal) (Except.ok (some []))

def searchRestaurants {σ : Type} (Search : SearchDo σ) (unmarshal : Unmarshal)
    (searchTerm lat lng : String) (s : σ) : Outcome σ :=
  if lng = "" then
    { response := handleError StatusBadRequest "No location params", calls := [], state := s }
  else if lat = "" then
    { response := handleError StatusBadRequest "No location params", calls := [], state := s }
  else
    let query := searchQuery lat lng searchTerm
    match Search esIndex query s with
    | (Except.error _, s1) =>
      { response := handleError StatusInternalServerError "Query failed :(",
        calls := [EngineCall.search esIndex query], state := s1 }
    | (Except.ok hits, s1) =>
      match mapHits unmarshal hits with
      | Except.error _ =>
        { response := recoveredResponse, calls := [EngineCall.search esIndex query],
          state := s1, panicked := true }
      | Except.ok restaurants =>
        { response := { code := StatusOK, body := Body.result { Restaurants := restaurants } },
          calls := [EngineCall.search esIndex query], state := s1 }

/-! ## The structured query of the specification

The specification asks for the compound query to be built as an object tree
and then serialized.  The tree and its serializer below follow the
specification's words; they are what `searchQuery` is compared with.  The
serializer lays the text out as the program does (white space between JSON
tokens carries no meaning), encodes every string with `jsonString` and every
coordinate, a number, with `Decimal.render`. -/

/-- A character that may not stand as itself inside a JSON string (RFC 8259):
the double quote, the backslash and the control characters below U+0020. -/
def needsEscape (c : Char) : Bool :=
  c = '"' || c = '\\' || c.toNat < 32

def hexDigit (n : Nat) : Char :=
  if n < 10 then Char.ofNat (48 + n) else Char.ofNat (87 + n)

def escapeChar (c : Char) : List Char :=
  if c = '"' then ['\\', '"']
  else if c = '\\' then ['\\', '\\']
  else if c.toNat < 32 then
    ['\\', 'u', '0', '0', hexDigit (c.toNat / 16), hexDigit (c.toNat % 16)]
  else [c]

def escapeChars : List Char → List Char
  | [] => []
  | c :: cs => escapeChar c ++ escapeChars cs

/-- The JSON encoding of a string: quoted, with the characters that need it escaped. -/
def jsonString (s : String) : String :=
  ⟨'"' :: (escapeChars s.data ++ ['"'])⟩

/-- The must clause: a multi-field text match. -/
structure MultiMatch where
  query : String
  fields : List String
  deriving DecidableEq, Repr

/-- A decimal number: sign, integer part and the digits after the point. -/
structure Decimal where
  negative : Bool
  whole : Nat
  fraction : List (Fin 10)
  deriving DecidableEq, Repr

def fractionChars : List (Fin 10) → List Char
  | [] => []
  | d :: ds => '.' :: (d :: ds).map (fun k => Nat.digitChar k.val)

/-- The JSON number text of a decimal (RFC 8259): an optional minus sign, the
integer part without leading zeros, and the fraction when there is one. -/
def Decimal.render (d : Decimal) : String :=
  ⟨(if d.negative then ['-'] else []) ++ (Nat.toDigits 10 d.whole ++ fractionChars d.fraction)⟩

/-- The shape of the filter: its kind and its coordinates, which are numbers. -/
structure Shape where
  type : String
  coordinates : List Decimal
  deriving DecidableEq, Repr

/-- The filter clause: the stored geometry of `field` against `shape`. -/
structure GeoShape where
  field : String
  shape : Shape
  relation : String
  deriving DecidableEq, Repr

/-- The boolean query node with its must and filter children. -/
structure BoolQuery where
  must : MultiMatch
  filter : GeoShape
  deriving DecidableEq, Repr

/-- The tree the specification describes for a search term and a point. -/
def specQuery (searchTerm : String) (first second : Decimal) : BoolQuery :=
  { must := { query := searchTerm, fields := ["name", "tags"] },
    filter := { field := "delivery_area",
                shape := { type := "point", coordinates := [first, second] },
                relation := "intersects" } }

def serializeMultiMatch (m : MultiMatch) : String :=
  "\x7b \"query\": " ++ jsonString m.query ++ ", \"fields\": [" ++
    String.intercalate ", " (m.fields.map jsonString) ++ "]\x7d"

def serializeShape (p : Shape) : String :=
  "\x7b\n" ++
  "\t\t\t\t\t\t\t\"type\": " ++ jsonString p.type ++ ",\n" ++
  "\t\t\t\t\t\t\t\"coordinates\": [" ++
    String.intercalate ", " (p.coordinates.map Decimal.render) ++ "]\n" ++
  "\t\t\t\t\t\t\x7d"

def serializeGeoShape (g : GeoShape) : String :=
  "\x7b\n" ++
  "\t\t\t\t\t" ++ jsonString g.field ++ ": \x7b\n" ++
  "\t\t\t\t\t\t\"shape\": " ++ serializeShape g.shape ++ ",\n" ++
  "\t\t\t\t\t\t\"relation\": " ++ jsonString g.relation ++ "\n" ++
  "\t\t\t\t\t\x7d\n" ++
  "\t\t\t\t\x7d"

def serializeQuery (b : BoolQuery) : String :=
  "\x7b\n" ++
  "\t\t\"bool\" : \x7b\n" ++
  "\t\t\t\"must\" : \x7b\n" ++
  "\t\t\t\t\"multi_match\" : " ++ serializeMultiMatch b.must ++ "\n" ++
  "\t\t\t\x7d,\n" ++
  "\t\t\t\"filter\" : \x7b\n" ++
  "\t\t\t\t\"geo_shape\" : " ++ serializeGeoShape b.filter ++ "\n" ++
  "\t\t\t\x7d\n" ++
  "\t\t\x7d\n" ++
  "\t\x7d"

/-- The text of `searchFormat` before the verb of the search term. -/
def formatHead : List Char :=
  ("\x7b\n" ++
  "\t\t\"bool\" : \x7b\n" ++
  "\t\t\t\"must\" : \x7b\n" ++
  "\t\t\t\t\"multi_match\" : \x7b \"query\": \"").data

/-- The text of `searchFormat` between the verb of the search term and the
first verb of the point. -/
def formatMiddle : List Char :=
  ("\", \"fields\": [\"name\", \"tags\"]\x7d\n" ++
  "\t\t\t\x7d,\n" ++
  "\t\t\t\"filter\" : \x7b\n" ++
  "\t\t\t\t\"geo_shape\" : \x7b\n" ++
  "\t\t\t\t\t\"delivery_area\": \x7b\n" ++
  "\t\t\t\t\t\t\"shape\": \x7b\n" ++
  "\t\t\t\t\t\t\t\"type\": \"point\",\n" ++
  "\t\t\t\t\t\t\t\"coordinates\": [").data

/-- The text of `searchFormat` after the second verb of the point. -/
def formatTail : List Char :=
  ("]\n" ++
  "\t\t\t\t\t\t\x7d,\n" ++
  "\t\t\t\t\t\t\"relation\": \"intersects\"\n" ++
  "\t\t\t\t\t\x7d\n" ++
  "\t\t\t\t\x7d\n" ++
  "\t\t\t\x7d\n" ++
  "\t\t\x7d\n" ++
  "\t\x7d").data

/-! ## The mapping as a table of properties -/

/-- What the mapping declares for one property. -/
structure FieldMapping where
  type : String
  tree : Option String
  precision : Option String
  deriving DecidableEq, Repr

/-- The properties the constant `mapping` declares, in its order (lines 24-50). -/
def mappingProperties : List (String × FieldMapping) :=
  [("id", { type := "text", tree := none, precision := none }),
   ("name", { type := "text", tree := none, precision := none }),
   ("url", { type := "text", tree := none, precision := none }),
   ("image_url", { type := "text", tree := none, precision := none }),
   ("address", { type := "text", tree := none, precision := none }),
   ("open", { type := "boolean", tree := none, precision := none }),
   ("rating", { type := "integer", tree := none, precision := none }),
   ("price", { type := "integer", tree := none, precision := none }),
   ("delivery_area", { type := "geo_shape", tree := some "quadtree", precision := some "1m" })]

def renderOption (label : String) : Option String → String
  | none => ""
  | some v => label ++ "\"" ++ v ++ "\""

def renderProperty (p : String × FieldMapping) : String :=
  "\t\t\t\t\t\"" ++ p.1 ++ "\": \x7b\n" ++
  "\t\t\t\t\t\t\"type\": \"" ++ p.2.type ++ "\"" ++
    renderOption ", \"tree\":" p.2.tree ++ renderOption ", \"precision\": " p.2.precision ++ "\n" ++
  "\t\t\t\t\t\x7d"

/-- The text of a mapping body for the document type `restaurant`, in the
layout of the constant `mapping`. -/
def renderMapping (props : List (String × FieldMapping)) : String :=
  "\n" ++
  "\t\x7b\n" ++
  "\t\t\"mappings\": \x7b\n" ++
  "\t\t\t\"restaurant\": \x7b\n" ++
  "\t\t\t\t\"properties\": \x7b\n" ++
  String.intercalate ",\n" (props.map renderProperty) ++ "\n" ++
  "\t\t\t\t\x7d\n" ++
  "\t\t\t\x7d\n" ++
  "\t\t\x7d\n" ++
  "\t\x7d\n"

/-- The type the mapping declares for a field, if it declares the field. -/
def mappedType (field : String) : Option String :=
  (mappingProperties.lookup field).map (fun m => m.type)

/-! ## A model of the engine

The engine is an external collaborator (specification, section 6).  For the
statements about what ingestion and the schema step leave in the engine, it
is modelled from the specification's contract. -/

/-- Modelled from the spec: the state of the external engine, which is not part
of the repository: the indices that exist, each with the body it was created
from, and the stored documents by document key. -/
structure ModelState where
  indices : List (String × String)
  docs : List (String × Restaurant)
  deriving DecidableEq, Repr

/-- Modelled from the spec: insert-or-overwrite by document key ("bulk document
upsert keyed by document ID"): whatever is stored under the key is replaced. -/
def upsert (key : String) (doc : Restaurant) (docs : List (String × Restaurant)) :
    List (String × Restaurant) :=
  docs.filter (fun d => d.1 != key) ++ [(key, doc)]

/-- Modelled from the spec: the engine applies the index operations of a bulk
call in their order. -/
def applyBulk (requests : List BulkIndexRequest) (docs : List (String × Restaurant)) :
    List (String × Restaurant) :=
  requests.foldl (fun ds r => upsert r.Id r.Doc ds) docs

/-- Modelled from the spec: the bulk call of the external engine; it succeeds
and reports no failed entry. -/
def modelBulk : BulkDo ModelState :=
  fun _ _ requests st =>
    (Except.ok { Took := 0, Errors := false, Items := [] },
     { st with docs := applyBulk requests st.docs })

/-- Modelled from the spec: the engine as the schema step meets it at boot: its
contents and, for the coming calls in their order, whether each of them fails
(the specification reckons with a failure to check or to create); a call
beyond the list does not fail. -/
structure BootState where
  engine : ModelState
  faults : List Bool
  deriving DecidableEq, Repr

/-- Whether the model engine holds an index of that name. -/
def indexPresent (index : String) (e : ModelState) : Bool :=
  e.indices.any (fun i => i.1 == index)

/-- Whether the next call fails, and the faults left for the calls after it. -/
def nextFault : List Bool → Bool × List Bool
  | [] => (false, [])
  | f :: rest => (f, rest)

/-- Modelled from the spec: the index-existence check of the external engine.  A
check that fails returns `false` with the error, as the client does; one that
does not fail answers truthfully.  The contents are not changed. -/
def modelIndexExists : IndexExistsDo BootState :=
  fun index st =>
    if (nextFault st.faults).1 then
      ((false, some "engine unavailable"), { st with faults := (nextFault st.faults).2 })
    else
      ((indexPresent index st.engine, none), { st with faults := (nextFault st.faults).2 })

/-- Modelled from the spec: index creation from a mapping descriptor by the
external engine.  A call that fails changes nothing; creating an index that
exists is refused; otherwise the index is added with the body. -/
def modelCreateIndex : CreateIndexDo BootState :=
  fun index body st =>
    if (nextFault st.faults).1 then
      (some "engine unavailable", { st with faults := (nextFault st.faults).2 })
    else if indexPresent index st.engine then
      (some "resource_already_exists_exception", { st with faults := (nextFault st.faults).2 })
    else
      (none, { engine := { st.engine with indices := st.engine.indices ++ [(index, body)] },
               faults := (nextFault st.faults).2 })

/-- The documents the model engine holds under a key. -/
def docsUnder (key : String) (st : ModelState) : List Restaurant :=
  (st.docs.filter (fun d => d.1 == key)).map (fun d => d.2)

/-! ## Fixtures for the examples -/

/-- A binder that answers every body with the given reply. -/
def stubBind (reply : Except String (Slice Restaurant)) : BindJSON :=
  fun _ => reply

/-- A bulk call of a fake engine that answers with the given reply and counts
the calls it received. -/
def stubBulk (reply : Except String BulkResponse) : BulkDo Nat :=
  fun _ _ _ n => (reply, n + 1)

/-- A search call of a fake engine that answers with the given reply and counts
the calls it received. -/
def stubSearch (reply : Except String (List SearchHit)) : SearchDo Nat :=
  fun _ _ n => (reply, n + 1)

/-- One batch ingested into the model engine through `createRestaurants`. -/
def ingest (rs : Slice Restaurant) (st : ModelState) : ModelState :=
  (createRestaurants modelBulk (stubBind (Except.ok rs)) "" st).state

/-- The schema step run on the model engine. -/
def bootSchema (st : BootState) : SchemaOutcome BootState :=
  ensureIndex modelIndexExists modelCreateIndex st

def unitSquare : Slice (Slice (Slice Float64)) :=
  some [some [some [⟨0⟩, ⟨0⟩], some [⟨0⟩, ⟨4607182418800017408⟩],
              some [⟨4607182418800017408⟩, ⟨4607182418800017408⟩],
              some [⟨4607182418800017408⟩, ⟨0⟩], some [⟨0⟩, ⟨0⟩]]]

def pizzaPlace : Restaurant :=
  { ID := "r1", Name := "Pizza Place", URL := "", ImageURL := "", Address := "",
    Open := true, Tags := some ["pizza"], FoodTags := none, Price := 2, Rating := 4,
    DeliveryArea := { Typ := "Polygon", Coordinates := unitSquare } }

def pizzaPalace : Restaurant :=
  { pizzaPlace with Name := "Pizza Palace", Rating := 5 }

def sushiBar : Restaurant :=
  { pizzaPlace with ID := "r2", Name := "Sushi Bar", Tags := some ["sushi"] }

/-- A stored document whose `price` is a string: `json.Unmarshal` decodes `id`,
leaves `Price` at zero and returns an `UnmarshalTypeError`. -/
def brokenSource : String := "\x7b\"id\":\"r1\",\"price\":\"cheap\"\x7d"

def soundSource : String := "\x7b\"id\":\"r2\",\"name\":\"Sushi Bar\"\x7d"

/-- A decoder for the two documents of the examples, on which it answers as
`encoding/json` does; any other text is reported as not being JSON and leaves
the value as it was. -/
def sampleUnmarshal : Unmarshal :=
  fun data v =>
    if data = brokenSource then
      ({ v with ID := "r1" },
       some "json: cannot unmarshal string into Go struct field Restaurant.price of type int")
    else if data = soundSource then ({ v with ID := "r2", Name := "Sushi Bar" }, none)
    else (v, some "invalid character")

def sampleHits : List SearchHit :=
  [{ Id := "r1", Source := some brokenSource }, { Id := "r2", Source := some soundSource }]

/-- A hit that the engine returned without its source. -/
def bareHit : SearchHit :=
  { Id := "r3", Source := none }


/-- The result the specification describes for a list of hits: the records of
the hits whose document decodes without error, in hit order, the others left out. -/
def decodedHits (unmarshal : Unmarshal) (hits : List SearchHit) : List Restaurant :=
  hits.filterMap (fun hit =>
    match hit.Source with
    | none => none
    | some data =>
      match unmarshal data Restaurant.zero with
      | (r, none) => some r
      | (_, some _) => none)

/-- A bulk reply without error in which the engine reports a failed entry. -/
def mixedBulk : BulkResponse :=
  { Took := 3, Errors := true, Items := [("r1", 201), ("r2", 400)] }

/-! ## Lemmas on the loops and on the text of the query -/

set_option maxRecDepth 1000000

set_option maxHeartbeats 4000000

theorem foldl_snoc_eq_map {α β : Type} (f : α → β) (l : List α) (init : List β) :
    l.foldl (fun acc x => acc ++ [f x]) init = init ++ l.map f := by
  induction l generalizing init with
  | nil => simp
  | cons x xs ih => simp [List.foldl_cons, ih]

theorem bulkRequests_eq_map (rs : Slice Restaurant) :
    bulkRequests rs = (Slice.toList rs).map (fun r => { Id := r.ID, Doc := r }) := by
  unfold bulkRequests
  exact (foldl_snoc_eq_map (fun r : Restaurant => ({ Id := r.ID, Doc := r } : BulkIndexRequest))
    (Slice.toList rs) []).trans (by simp)

theorem foldl_appendHit_error (unmarshal : Unmarshal) (hits : List SearchHit) (e : String) :
    hits.foldl (appendHit unmarshal) (Except.error e) = Except.error e := by
  induction hits with
  | nil => rfl
  | cons hit rest ih => simpa [List.foldl_cons, appendHit] using ih

theorem foldl_appendHit_ok (unmarshal : Unmarshal) (hits : List SearchHit)
    (init : List Restaurant) :
    hits.foldl (appendHit unmarshal) (Except.ok (some init))
      = if hits.all (fun hit => hit.Source.isSome) = true then
          Except.ok (some (init ++ hits.filterMap (fun hit =>
            hit.Source.map (fun data => (unmarshal data Restaurant.zero).1))))
        else Except.error nilDereference := by
  induction hits generalizing init with
  | nil => simp
  | cons hit rest ih =>
    cases hsrc : hit.Source with
    | none =>
      have step : appendHit unmarshal (Except.ok (some init)) hit
          = Except.error nilDereference := by
        simp [appendHit, hsrc]
      simp [List.foldl_cons, step, foldl_appendHit_error, hsrc]
    | some data =>
      have step : appendHit unmarshal (Except.ok (some init)) hit
          = Except.ok (some (init ++ [(unmarshal data Restaurant.zero).1])) := by
        simp [appendHit, hsrc, Slice.append, Slice.toList]
      simp [List.foldl_cons, step, ih, hsrc]

theorem all_isSome_of_forall (hits : List SearchHit) (h : ∀ hit ∈ hits, hit.Source ≠ none) :
    hits.all (fun hit => hit.Source.isSome) = true := by
  rw [List.all_eq_true]
  intro hit hmem
  cases hsrc : hit.Source with
  | none => exact absurd hsrc (h hit hmem)
  | some data => rfl

theorem map_eq_map_some_filterMap {α β : Type} (f : α → Option β) (l : List α)
    (h : ∀ a ∈ l, f a ≠ none) : l.map f = (l.filterMap f).map some := by
  induction l with
  | nil => rfl
  | cons a rest ih =>
    have hrest := ih (fun b hb => h b (List.mem_cons_of_mem a hb))
    cases hfa : f a with
    | none => exact absurd hfa (h a (List.mem_cons_self a rest))
    | some b => simp [List.filterMap_cons, hfa, hrest]

theorem decoded_ne_none (unmarshal : Unmarshal) (hits : List SearchHit)
    (h : ∀ hit ∈ hits, hit.Source ≠ none) :
    ∀ hit ∈ hits,
      (fun hit : SearchHit =>
        hit.Source.map (fun data => (unmarshal data Restaurant.zero).1)) hit ≠ none := by
  intro hit hmem hnone
  cases hsrc : hit.Source with
  | none => exact h hit hmem hsrc
  | some data => simp [hsrc] at hnone

/-- With every hit carrying its source, the loop ends without panic and holds
one record per hit, in hit order. -/
theorem mapHits_of_sources (unmarshal : Unmarshal) (hits : List SearchHit)
    (h : ∀ hit ∈ hits, hit.Source ≠ none) :
    ∃ records : List Restaurant,
      mapHits unmarshal hits = Except.ok (some records) ∧
      records.length = hits.length ∧
      hits.map (fun hit => hit.Source.map (fun data => (unmarshal data Restaurant.zero).1))
        = records.map some := by
  refine ⟨hits.filterMap (fun hit =>
    hit.Source.map (fun data => (unmarshal data Restaurant.zero).1)), ?_, ?_, ?_⟩
  · unfold mapHits
    rw [foldl_appendHit_ok, all_isSome_of_forall hits h]
    simp
  · have hmap := map_eq_map_some_filterMap
      (fun hit : SearchHit => hit.Source.map (fun data => (unmarshal data Restaurant.zero).1)) hits
      (decoded_ne_none unmarshal hits h)
    have hlen := congrArg List.length hmap
    simpa using hlen.symm
  · exact map_eq_map_some_filterMap _ hits (decoded_ne_none unmarshal hits h)

theorem searchQuery_data (lat lng q : String) :
    (searchQuery lat lng q).data
      = formatHead ++ (q.data ++ (formatMiddle ++ (lat.data ++ (", ".data ++
          (lng.data ++ formatTail))))) :=
  rfl

theorem intercalate_pair (a b : String) : String.intercalate ", " [a, b] = a ++ ", " ++ b := by
  simp [String.intercalate, String.intercalate.go]

theorem serializeQuery_data (q : String) (first second : Decimal) :
    (serializeQuery (specQuery q first second)).data
      = formatHead ++ (escapeChars q.data ++ (formatMiddle ++ (first.render.data ++ (", ".data ++
          (second.render.data ++ formatTail))))) := by
  have e1 : escapeChars "name".data = "name".data := by decide
  have e2 : escapeChars "tags".data = "tags".data := by decide
  have e3 : escapeChars "delivery_area".data = "delivery_area".data := by decide
  have e4 : escapeChars "point".data = "point".data := by decide
  have e5 : escapeChars "intersects".data = "intersects".data := by decide
  simp only [serializeQuery, serializeMultiMatch, serializeGeoShape, serializeShape, specQuery,
    jsonString, intercalate_pair, List.map, String.data_append, List.append_assoc,
    List.cons_append, e1, e2, e3, e4, e5]
  rfl

theorem mapping_eq_renderMapping : mapping = renderMapping mappingProperties := by
  decide

theorem escapeChars_of_plain (l : List Char) (h : ∀ c ∈ l, needsEscape c = false) :
    escapeChars l = l := by
  induction l with
  | nil => rfl
  | cons c cs ih =>
    have hc : needsEscape c = false := h c (List.mem_cons_self c cs)
    have hcs : escapeChars cs = cs := ih (fun d hd => h d (List.mem_cons_of_mem c hd))
    simp only [needsEscape, Bool.or_eq_false_iff, decide_eq_false_iff_not] at hc
    obtain ⟨⟨h1, h2⟩, h3⟩ := hc
    simp [escapeChars, escapeChar, h1, h2, h3, hcs]

theorem digitChar_isDigit : ∀ m : Nat, m < 10 → (Nat.digitChar m).isDigit = true := by
  decide

theorem toDigitsCore_head (fuel n : Nat) (ds : List Char)
    (h : ∃ c rest, ds = c :: rest ∧ c.isDigit = true) :
    ∃ c rest, Nat.toDigitsCore 10 fuel n ds = c :: rest ∧ c.isDigit = true := by
  induction fuel generalizing n ds with
  | zero => simpa [Nat.toDigitsCore] using h
  | succ k ih =>
    by_cases hz : n / 10 = 0
    · exact ⟨Nat.digitChar (n % 10), ds, by simp [Nat.toDigitsCore, hz],
        digitChar_isDigit (n % 10) (Nat.mod_lt n (by decide))⟩
    · have hstep : Nat.toDigitsCore 10 (k + 1) n ds
          = Nat.toDigitsCore 10 k (n / 10) (Nat.digitChar (n % 10) :: ds) := by
        simp [Nat.toDigitsCore, hz]
      rw [hstep]
      exact ih (n / 10) (Nat.digitChar (n % 10) :: ds)
        ⟨Nat.digitChar (n % 10), ds, rfl, digitChar_isDigit (n % 10) (Nat.mod_lt n (by decide))⟩

theorem toDigits_head (n : Nat) :
    ∃ c rest, Nat.toDigits 10 n = c :: rest ∧ c.isDigit = true := by
  unfold Nat.toDigits
  by_cases hz : n / 10 = 0
  · exact ⟨Nat.digitChar (n % 10), [], by simp [Nat.toDigitsCore, hz],
      digitChar_isDigit (n % 10) (Nat.mod_lt n (by decide))⟩
  · have hstep : Nat.toDigitsCore 10 (n + 1) n []
        = Nat.toDigitsCore 10 n (n / 10) [Nat.digitChar (n % 10)] := by
      simp [Nat.toDigitsCore, hz]
    rw [hstep]
    exact toDigitsCore_head n (n / 10) [Nat.digitChar (n % 10)]
      ⟨Nat.digitChar (n % 10), [], rfl, digitChar_isDigit (n % 10) (Nat.mod_lt n (by decide))⟩

/-- The text of a decimal starts with a minus sign or a digit. -/
theorem render_head (d : Decimal) :
    ∃ c rest, d.render.data = c :: rest ∧ (c = '-' ∨ c.isDigit = true) := by
  obtain ⟨c, rest, hdig, hc⟩ := toDigits_head d.whole
  cases hneg : d.negative with
  | true =>
    exact ⟨'-', Nat.toDigits 10 d.whole ++ fractionChars d.fraction,
      by simp [Decimal.render, hneg], Or.inl rfl⟩
  | false =>
    exact ⟨c, rest ++ fractionChars d.fraction, by simp [Decimal.render, hneg, hdig], Or.inr hc⟩

theorem searchRestaurants_calls {σ : Type} (Search : SearchDo σ) (unmarshal : Unmarshal)
    (q lat lng : String) (s : σ) :
    (searchRestaurants Search unmarshal q lat lng s).calls
      = if lat = "" ∨ lng = "" then [] else [EngineCall.search esIndex (searchQuery lat lng q)] := by
  unfold searchRestaurants
  by_cases h1 : lng = ""
  · simp [h1]
  · by_cases h2 : lat = ""
    · simp [h1, h2]
    · rcases h : Search esIndex (searchQuery lat lng q) s with ⟨_ | hits, s1⟩
      · simp [h1, h2, h]
      · cases hm : mapHits unmarshal hits <;> simp [h1, h2, h, hm]

theorem searchRestaurants_response {σ : Type} (Search : SearchDo σ) (unmarshal : Unmarshal)
    (q lat lng : String) (s : σ) :
    (searchRestaurants Search unmarshal q lat lng s).response
      = if lat = "" ∨ lng = "" then handleError StatusBadRequest "No location params"
        else match (Search esIndex (searchQuery lat lng q) s).1 with
          | Except.error _ => handleError StatusInternalServerError "Query failed :("
          | Except.ok hits =>
            match mapHits unmarshal hits with
            | Except.error _ => recoveredResponse
            | Except.ok restaurants =>
              Response.mk StatusOK (Body.result (Result.mk restaurants)) := by
  unfold searchRestaurants
  by_cases h1 : lng = ""
  · simp [h1]
  · by_cases h2 : lat = ""
    · simp [h1, h2]
    · rcases h : Search esIndex (searchQuery lat lng q) s with ⟨_ | hits, s1⟩
      · simp [h1, h2, h]
      · cases hm : mapHits unmarshal hits <;> simp [h1, h2, h, hm]

theorem createRestaurants_ok {σ : Type} (Bulk : BulkDo σ) (bind : BindJSON) (body : String)
    (s : σ) (rs : Slice Restaurant) (h : bind body = Except.ok rs) :
    (createRestaurants Bulk bind body s).calls
        = [EngineCall.bulk esIndex esType (bulkRequests rs)] ∧
      (createRestaurants Bulk bind body s).state = (Bulk esIndex esType (bulkRequests rs) s).2 ∧
      (createRestaurants Bulk bind body s).response
        = match (Bulk esIndex esType (bulkRequests rs) s).1 with
          | Except.error _ => handleError StatusBadRequest "Restaurant creation failed"
          | Except.ok _ => { code := StatusOK, body := Body.empty } := by
  unfold createRestaurants
  rcases hb : Bulk esIndex esType (bulkRequests rs) s with ⟨_ | _, s1⟩ <;> simp [h, hb]

/-! ## Search: the location check (C1) -/

/-- C2: when the payload does not decode, `createRestaurants` answers 400
"Invalid JSON", makes no engine call and leaves the engine as it was: nothing
of the batch is submitted. -/
theorem createRestaurants_invalid_json {σ : Type} (Bulk : BulkDo σ) (bind : BindJSON)
    (body : String) (s : σ) (e : String) (h : bind body = Except.error e) :
    (createRestaurants Bulk bind body s).response = handleError 400 "Invalid JSON" ∧
    (createRestaurants Bulk bind body s).calls = [] ∧
    (createRestaurants Bulk bind body s).state = s ∧
    (createRestaurants Bulk bind body s).response
      = { code := 400, body := Body.error "Invalid JSON" } := by
  unfold createRestaurants
  simp [h, StatusBadRequest, handleError]

/-- C8: when the payload decodes, `createRestaurants` makes the bulk call once
and no other call (no retry); it answers 200 with no body when that call
returns no error, whatever the engine reported per entry, and 400 with the
error "Restaurant creation failed" when it returns an error. -/
theorem createRestaurants_bulk_outcome {σ : Type} (Bulk : BulkDo σ) (bind : BindJSON)
    (body : String) (s : σ) (rs : Slice Restaurant) (h : bind body = Except.ok rs) :
    (createRestaurants Bulk bind body s).calls
        = [EngineCall.bulk "restaurants" "restaurant"
            ((Slice.toList rs).map (fun r => { Id := r.ID, Doc := r }))] ∧
    (createRestaurants Bulk bind body s).response
        = (match (Bulk "restaurants" "restaurant"
              ((Slice.toList rs).map (fun r => { Id := r.ID, Doc := r })) s).1 with
          | Except.error _ => { code := 400, body := Body.error "Restaurant creation failed" }
          | Except.ok _ => { code := 200, body := Body.empty }) ∧
    ((createRestaurants Bulk bind body s).response = { code := 200, body := Body.empty } ∨
      (createRestaurants Bulk bind body s).response
        = { code := 400, body := Body.error "Restaurant creation failed" }) ∧
    (createRestaurants Bulk bind body s).panicked = false := by
  obtain ⟨hc, _, hr⟩ := createRestaurants_ok Bulk bind body s rs h
  simp only [esIndex, esType, handleError, StatusBadRequest, StatusOK, bulkRequests_eq_map]
    at hc hr
  refine ⟨hc, hr, ?_, ?_⟩
  · rw [hr]
    cases (Bulk "restaurants" "restaurant"
      ((Slice.toList rs).map (fun r => ({ Id := r.ID, Doc := r } : BulkIndexRequest))) s).1 <;>
      simp
  · unfold createRestaurants
    rcases hb : Bulk esIndex esType (bulkRequests rs) s with ⟨_ | _, s1⟩ <;> simp [h, hb]

/-! ## Search: the engine query and the mapping of the hits (C7, C4) -/

/-- C7 (amended): with non-empty `lat` and `lng`, `searchRestaurants` makes
exactly one engine query, on the index "restaurants", with the text of the
template filled in; when the query returns an error the response is 500 with
the error "Query failed :(" and holds no result; when it returns hits that all
carry their stored document the response is 200 with the envelope whose
sequence has one record per hit in the order of the hits, and it is the empty
(non-nil) sequence when there is no hit. -/
theorem searchRestaurants_query_outcome {σ : Type} (Search : SearchDo σ)
    (unmarshal : Unmarshal) (q lat lng : String) (s : σ) (hlat : lat ≠ "") (hlng : lng ≠ "") :
    (searchRestaurants Search unmarshal q lat lng s).calls
        = [EngineCall.search "restaurants"
            (String.mk (formatHead ++ q.data ++ formatMiddle ++ lat.data ++ ", ".data
              ++ lng.data ++ formatTail))] ∧
    (∀ e : String,
      (Search "restaurants"
          (String.mk (formatHead ++ q.data ++ formatMiddle ++ lat.data ++ ", ".data
            ++ lng.data ++ formatTail)) s).1 = Except.error e →
      (searchRestaurants Search unmarshal q lat lng s).response
        = { code := 500, body := Body.error "Query failed :(" }) ∧
    (∀ hits : List SearchHit,
      (Search "restaurants"
          (String.mk (formatHead ++ q.data ++ formatMiddle ++ lat.data ++ ", ".data
            ++ lng.data ++ formatTail)) s).1 = Except.ok hits →
      (∀ hit ∈ hits, hit.Source ≠ none) →
      ∃ records : List Restaurant,
        (searchRestaurants Search unmarshal q lat lng s).response
          = { code := 200, body := Body.result { Restaurants := some records } } ∧
        records.length = hits.length ∧
        hits.map (fun hit => hit.Source.map (fun data => (unmarshal data Restaurant.zero).1))
          = records.map some) ∧
    ((Search "restaurants"
          (String.mk (formatHead ++ q.data ++ formatMiddle ++ lat.data ++ ", ".data
            ++ lng.data ++ formatTail)) s).1 = Except.ok [] →
      (searchRestaurants Search unmarshal q lat lng s).response
        = { code := 200, body := Body.result { Restaurants := some [] } }) := by
  have hno : ¬ (lat = "" ∨ lng = "") := by
    intro h
    cases h with
    | inl h => exact hlat h
    | inr h => exact hlng h
  have htext : searchQuery lat lng q
      = String.mk (formatHead ++ q.data ++ formatMiddle ++ lat.data ++ ", ".data ++ lng.data
          ++ formatTail) := by
    apply String.ext
    show (searchQuery lat lng q).data = _
    simp only [List.append_assoc]
    rfl
  have hc := searchRestaurants_calls Search unmarshal q lat lng s
  have hr := searchRestaurants_response Search unmarshal q lat lng s
  simp only [hno, if_false, esIndex, htext, handleError, StatusInternalServerError, StatusOK,
    recoveredResponse] at hc hr
  refine ⟨hc, ?_, ?_, ?_⟩
  · intro e he
    rw [hr, he]
  · intro hits hhits hsrc
    obtain ⟨records, hm, hlen, hrec⟩ := mapHits_of_sources unmarshal hits hsrc
    refine ⟨records, ?_, hlen, hrec⟩
    rw [hr, hhits]
    simp only [hm]
  · intro h0
    rw [hr, h0]
    rfl

/-- C7, counterexample: the query succeeds with one hit that carries no
source; the handler panics on line 233 and the response is 500 with no body,
not 200 with an envelope. -/
theorem searchRestaurants_bare_hit_panics :
    (stubSearch (Except.ok [bareHit]) "restaurants" (searchQuery "0.5" "0.7" "pizza") 0).1
      = Except.ok [bareHit] ∧
    (searchRestaurants (stubSearch (Except.ok [bareHit])) sampleUnmarshal "pizza" "0.5" "0.7"
        0).response = { code := 500, body := Body.empty } ∧
    (searchRestaurants (stubSearch (Except.ok [bareHit])) sampleUnmarshal "pizza" "0.5" "0.7"
        0).panicked = true ∧
    ¬ (∀ (hits : List SearchHit),
        (searchRestaurants (stubSearch (Except.ok hits)) sampleUnmarshal "pizza" "0.5" "0.7"
            0).response.code = 200) := by
  refine ⟨rfl, by decide, by decide, ?_⟩
  intro hall
  exact absurd (hall [bareHit]) (by decide)

/-- C7 (amended), on a fake engine: a query error gives 500 "Query failed :(",
and a reply without hits gives one query, with the text shown, and 200 with
the empty sequence. -/
theorem searchRestaurants_query_outcome_witness :
    "5" ≠ "" ∧
    (searchRestaurants (stubSearch (Except.error "timeout")) sampleUnmarshal "pizza" "5" "5"
        0).response = { code := 500, body := Body.error "Query failed :(" } ∧
    (searchRestaurants (stubSearch (Except.ok [])) sampleUnmarshal "pizza" "5" "5" 0).calls
      = [EngineCall.search "restaurants"
          ("\x7b\n" ++
          "\t\t\"bool\" : \x7b\n" ++
          "\t\t\t\"must\" : \x7b\n" ++
          "\t\t\t\t\"multi_match\" : \x7b \"query\": \"pizza\", \"fields\": [\"name\", \"tags\"]\x7d\n" ++
          "\t\t\t\x7d,\n" ++
          "\t\t\t\"filter\" : \x7b\n" ++
          "\t\t\t\t\"geo_shape\" : \x7b\n" ++
          "\t\t\t\t\t\"delivery_area\": \x7b\n" ++
          "\t\t\t\t\t\t\"shape\": \x7b\n" ++
          "\t\t\t\t\t\t\t\"type\": \"point\",\n" ++
          "\t\t\t\t\t\t\t\"coordinates\": [5, 5]\n" ++
          "\t\t\t\t\t\t\x7d,\n" ++
          "\t\t\t\t\t\t\"relation\": \"intersects\"\n" ++
          "\t\t\t\t\t\x7d\n" ++
          "\t\t\t\t\x7d\n" ++
          "\t\t\t\x7d\n" ++
          "\t\t\x7d\n" ++
          "\t\x7d")] ∧
    (searchRestaurants (stubSearch (Except.ok [])) sampleUnmarshal "pizza" "5" "5" 0).response
      = { code := 200, body := Body.result { Restaurants := some [] } } :=
  ⟨by decide,
    (searchRestaurants_query_outcome (stubSearch (Except.error "timeout")) sampleUnmarshal
      "pizza" "5" "5" 0 (by decide) (by decide)).2.1 "timeout" rfl,
    (searchRestaurants_query_outcome (stubSearch (Except.ok [])) sampleUnmarshal "pizza" "5" "5"
      0 (by decide) (by decide)).1.trans (by decide),
    (searchRestaurants_query_outcome (stubSearch (Except.ok [])) sampleUnmarshal "pizza" "5" "5"
      0 (by decide) (by decide)).2.2.2 rfl⟩

/-- C4 (amended): for the hits of a successful query that all carry their
stored document, `searchRestaurants` answers 200 with exactly one record per
hit, in hit order: the error of decoding a hit is not looked at, so a hit
whose document fails to decode is not left out; its record is the value the
decoder left in a fresh zero-valued `Restaurant`, as for every other hit. -/
theorem searchRestaurants_one_record_per_hit {σ : Type} (Search : SearchDo σ)
    (unmarshal : Unmarshal) (q lat lng : String) (s s1 : σ) (hits : List SearchHit)
    (hlat : lat ≠ "") (hlng : lng ≠ "")
    (h : Search "restaurants"
        (String.mk (formatHead ++ q.data ++ formatMiddle ++ lat.data ++ ", ".data
          ++ lng.data ++ formatTail)) s = (Except.ok hits, s1))
    (hsrc : ∀ hit ∈ hits, hit.Source ≠ none) :
    ∃ records : List Restaurant,
      (searchRestaurants Search unmarshal q lat lng s).response
        = { code := 200, body := Body.result { Restaurants := some records } } ∧
      (searchRestaurants Search unmarshal q lat lng s).panicked = false ∧
      records.length = hits.length ∧
      hits.map (fun hit => hit.Source.map (fun data => (unmarshal data Restaurant.zero).1))
        = records.map some := by
  obtain ⟨records, hm, hlen, hrec⟩ := mapHits_of_sources unmarshal hits hsrc
  have htext : searchQuery lat lng q
      = String.mk (formatHead ++ q.data ++ formatMiddle ++ lat.data ++ ", ".data ++ lng.data
          ++ formatTail) := by
    apply String.ext
    show (searchQuery lat lng q).data = _
    simp only [List.append_assoc]
    rfl
  have h1 : Search esIndex (searchQuery lat lng q) s = (Except.ok hits, s1) := by
    rw [htext]
    exact h
  refine ⟨records, ?_, ?_, hlen, hrec⟩
  · unfold searchRestaurants
    simp [hlat, hlng, h1, hm, StatusOK]
  · unfold searchRestaurants
    simp [hlat, hlng, h1, hm]

/-- C4, counterexample: on two hits of which the first fails to decode, the
response holds two records, the first of them for the failing hit; the
sequence with the failing hit left out is not what is returned.  And with a
third hit that carries no source the search does not answer with success. -/
theorem searchRestaurants_failed_hit_kept :
    (sampleUnmarshal brokenSource Restaurant.zero).2 ≠ none ∧
    (searchRestaurants (stubSearch (Except.ok sampleHits)) sampleUnmarshal "pizza" "0.5" "0.5"
        0).response
      = Response.mk 200 (Body.result (Result.mk (some
          [{ Restaurant.zero with ID := "r1" },
           { Restaurant.zero with ID := "r2", Name := "Sushi Bar" }]))) ∧
    decodedHits sampleUnmarshal sampleHits
      = [{ Restaurant.zero with ID := "r2", Name := "Sushi Bar" }] ∧
    ¬ (∀ (unmarshal : Unmarshal) (hits : List SearchHit),
        (searchRestaurants (stubSearch (Except.ok hits)) unmarshal "pizza" "0.5" "0.5"
            0).response
          = { code := 200,
              body := Body.result { Restaurants := some (decodedHits unmarshal hits) } }) ∧
    (searchRestaurants (stubSearch (Except.ok (sampleHits ++ [bareHit]))) sampleUnmarshal "pizza"
        "0.5" "0.5" 0).response = { code := 500, body := Body.empty } := by
  refine ⟨by decide, by decide, by decide, ?_, by decide⟩
  intro hall
  exact absurd (hall sampleUnmarshal sampleHits) (by decide)

/-- C4 (amended), at the two sample hits. -/
theorem searchRestaurants_one_record_per_hit_witness :
    "0.5" ≠ "" ∧
    (∀ hit ∈ sampleHits, hit.Source ≠ none) ∧
    ∃ records : List Restaurant,
      (searchRestaurants (stubSearch (Except.ok sampleHits)) sampleUnmarshal "pizza" "0.5" "0.5"
          0).response
        = { code := 200, body := Body.result { Restaurants := some records } } ∧
      (searchRestaurants (stubSearch (Except.ok sampleHits)) sampleUnmarshal "pizza" "0.5" "0.5"
          0).panicked = false ∧
      records.length = sampleHits.length ∧
      sampleHits.map (fun hit =>
          hit.Source.map (fun data => (sampleUnmarshal data Restaurant.zero).1))
        = records.map some :=
  ⟨by decide, by decide,
    searchRestaurants_one_record_per_hit (stubSearch (Except.ok sampleHits)) sampleUnmarshal
      "pizza" "0.5" "0.5" 0 1 sampleHits (by decide) (by decide) rfl (by decide)⟩

/-- C2, on a fake engine that counts its calls: a body that does not decode
gives 400 and the count stays at zero. -/
theorem createRestaurants_invalid_json_witness :
    stubBind (Except.error "unexpected EOF") "[\x7b\"id\":" = Except.error "unexpected EOF" ∧
    (createRestaurants (stubBulk (Except.ok mixedBulk)) (stubBind (Except.error "unexpected EOF"))
        "[\x7b\"id\":" 0).response = handleError 400 "Invalid JSON" ∧
    (createRestaurants (stubBulk (Except.ok mixedBulk)) (stubBind (Except.error "unexpected EOF"))
        "[\x7b\"id\":" 0).calls = [] ∧
    (createRestaurants (stubBulk (Except.ok mixedBulk)) (stubBind (Except.error "unexpected EOF"))
        "[\x7b\"id\":" 0).state = 0 ∧
    (createRestaurants (stubBulk (Except.ok mixedBulk)) (stubBind (Except.error "unexpected EOF"))
        "[\x7b\"id\":" 0).response = { code := 400, body := Body.error "Invalid JSON" } :=
  ⟨rfl, createRestaurants_invalid_json (stubBulk (Except.ok mixedBulk))
    (stubBind (Except.error "unexpected EOF")) "[\x7b\"id\":" 0 "unexpected EOF" rfl⟩

/-- C8, on a fake engine: a bulk call that returns no error but reports a
failed entry gives one call, 200 and no body; one that returns an error gives
400 with the error "Restaurant creation failed". -/
theorem createRestaurants_bulk_outcome_witness :
    stubBind (Except.ok (some [pizzaPlace, sushiBar])) "" = Except.ok (some [pizzaPlace, sushiBar]) ∧
    (createRestaurants (stubBulk (Except.ok mixedBulk))
        (stubBind (Except.ok (some [pizzaPlace, sushiBar]))) "" 0).calls
      = [EngineCall.bulk "restaurants" "restaurant"
          [{ Id := "r1", Doc := pizzaPlace }, { Id := "r2", Doc := sushiBar }]] ∧
    (createRestaurants (stubBulk (Except.ok mixedBulk))
        (stubBind (Except.ok (some [pizzaPlace, sushiBar]))) "" 0).response
      = { code := 200, body := Body.empty } ∧
    (createRestaurants (stubBulk (Except.error "connection refused"))
        (stubBind (Except.ok (some [pizzaPlace, sushiBar]))) "" 0).response
      = { code := 400, body := Body.error "Restaurant creation failed" } :=
  ⟨rfl,
    (createRestaurants_bulk_outcome (stubBulk (Except.ok mixedBulk))
      (stubBind (Except.ok (some [pizzaPlace, sushiBar]))) "" 0 (some [pizzaPlace, sushiBar]) rfl).1,
    (createRestaurants_bulk_outcome (stubBulk (Except.ok mixedBulk))
      (stubBind (Except.ok (some [pizzaPlace, sushiBar]))) "" 0 (some [pizzaPlace, sushiBar])
      rfl).2.1,
    (createRestaurants_bulk_outcome (stubBulk (Except.error "connection refused"))
      (stubBind (Except.ok (some [pizzaPlace, sushiBar]))) "" 0 (some [pizzaPlace, sushiBar])
      rfl).2.1⟩

/-! ## Search: the text of the query (C5, C6) -/

/-- C5 (amended): when the search term holds no double quote, no backslash and
no control character, and `lat` and `lng` are the texts of decimal numbers,
the payload `searchRestaurants` sends is the serialization of the structured
query tree whose must clause is a multi_match with query value `q` over the
fields name and tags and whose filter clause is the geo_shape intersects test
on delivery_area against the point whose two coordinates are these numbers. -/
theorem searchQuery_eq_serialized_of_plain (q lat lng : String) (x y : Decimal)
    (hq : ∀ c ∈ q.data, needsEscape c = false)
    (hlat : lat = x.render) (hlng : lng = y.render) :
    ∃ first second : Decimal,
      ((first = x ∧ second = y) ∨ (first = y ∧ second = x)) ∧
      searchQuery lat lng q = serializeQuery (specQuery q first second) := by
  refine ⟨x, y, Or.inl ⟨rfl, rfl⟩, ?_⟩
  apply String.ext
  rw [searchQuery_data, serializeQuery_data, escapeChars_of_plain q.data hq, hlat, hlng]

/-- C5 (amended), at the search term "pizza" and the point 0.5, 0.7. -/
theorem searchQuery_eq_serialized_of_plain_witness :
    (∀ c ∈ "pizza".data, needsEscape c = false) ∧
    "0.5" = Decimal.render { negative := false, whole := 0, fraction := [5] } ∧
    "0.7" = Decimal.render { negative := false, whole := 0, fraction := [7] } ∧
    ∃ first second : Decimal,
      ((first = { negative := false, whole := 0, fraction := [5] } ∧
          second = { negative := false, whole := 0, fraction := [7] }) ∨
        (first = { negative := false, whole := 0, fraction := [7] } ∧
          second = { negative := false, whole := 0, fraction := [5] })) ∧
      searchQuery "0.5" "0.7" "pizza" = serializeQuery (specQuery "pizza" first second) :=
  ⟨by decide, by decide, by decide,
    searchQuery_eq_serialized_of_plain "pizza" "0.5" "0.7"
      { negative := false, whole := 0, fraction := [5] }
      { negative := false, whole := 0, fraction := [7] } (by decide) (by decide) (by decide)⟩

/-- C5, counterexample: for a search term that holds a double quote the payload
is the serialization of no tree with that query value, whatever the point: the
quote is written into the payload as it is.  And for the plain term "pizza"
with the latitude text "abc" the payload is the serialization of no tree
either: the text is written where the number belongs. -/
theorem searchQuery_quote_not_serialized :
    ¬ (∀ q lat lng : String, lat ≠ "" → lng ≠ "" →
        ∃ first second : Decimal,
          searchQuery lat lng q = serializeQuery (specQuery q first second)) ∧
    ¬ (∃ first second : Decimal,
        searchQuery "0.5" "0.7" "pizza\" OR \""
          = serializeQuery (specQuery "pizza\" OR \"" first second)) ∧
    ¬ (∃ first second : Decimal,
        searchQuery "abc" "0.7" "pizza" = serializeQuery (specQuery "pizza" first second)) := by
  have hquote : ¬ (∃ first second : Decimal,
      searchQuery "0.5" "0.7" "pizza\" OR \""
        = serializeQuery (specQuery "pizza\" OR \"" first second)) := by
    rintro ⟨first, second, heq⟩
    have hdata := congrArg String.data heq
    rw [searchQuery_data, serializeQuery_data] at hdata
    have hrest := List.append_cancel_left hdata
    simp [escapeChars, escapeChar] at hrest
  refine ⟨?_, hquote, ?_⟩
  · intro hall
    exact hquote (hall "pizza\" OR \"" "0.5" "0.7" (by decide) (by decide))
  · rintro ⟨first, second, heq⟩
    have hdata := congrArg String.data heq
    rw [searchQuery_data, serializeQuery_data,
      show escapeChars "pizza".data = "pizza".data by decide] at hdata
    have h1 := List.append_cancel_left (List.append_cancel_left (List.append_cancel_left hdata))
    obtain ⟨c, rest, hrender, hc⟩ := render_head first
    rw [hrender] at h1
    have hhead : 'a' = c := by
      have := congrArg List.head? h1
      simpa using this
    subst hhead
    rcases hc with hc | hc
    · exact absurd hc (by decide)
    · exact absurd hc (by decide)

/-- C6: for every request the point of the filter is written with the request's
`lat` first and its `lng` second, between the bracket that follows
"coordinates" and the closing one; at lat 51.5 and lng -0.12 the payload is the
serialization of the tree with coordinates [51.5, -0.12] and differs from the
one with [-0.12, 51.5], longitude first. -/
theorem searchQuery_point_is_lat_then_lng :
    (∀ q lat lng : String,
      (searchQuery lat lng q).data
        = formatHead ++ q.data ++ formatMiddle ++ lat.data ++ ", ".data ++ lng.data
            ++ formatTail) ∧
    "\"coordinates\": [".data <:+ formatMiddle ∧
    "]".data <+: formatTail ∧
    searchQuery "51.5" "-0.12" "pizza"
      = serializeQuery (specQuery "pizza" { negative := false, whole := 51, fraction := [5] }
          { negative := true, whole := 0, fraction := [1, 2] }) ∧
    searchQuery "51.5" "-0.12" "pizza"
      ≠ serializeQuery (specQuery "pizza" { negative := true, whole := 0, fraction := [1, 2] }
          { negative := false, whole := 51, fraction := [5] }) := by
  refine ⟨?_, by decide, by decide, by decide, by decide⟩
  intro q lat lng
  rw [searchQuery_data]
  simp only [List.append_assoc]

set_option maxRecDepth 20000

set_option maxHeartbeats 400000

/-! ## The model engine: last write wins (C9) -/

theorem ingest_eq (rs : Slice Restaurant) (st : ModelState) :
    ingest rs st = { st with docs := applyBulk (bulkRequests rs) st.docs } := by
  simp [ingest, createRestaurants, stubBind, modelBulk]

theorem filter_key_upsert (key : String) (doc : Restaurant) (docs : List (String × Restaurant)) :
    (upsert key doc docs).filter (fun d => d.1 == key) = [(key, doc)] := by
  simp [upsert, List.filter_append, List.filter_filter]

theorem applyBulk_cons (r : BulkIndexRequest) (rs : List BulkIndexRequest)
    (docs : List (String × Restaurant)) :
    applyBulk (r :: rs) docs = applyBulk rs (upsert r.Id r.Doc docs) := rfl

/-- The documents whose key no request of the batch names are kept in place,
and behind them stands what the batch leaves in an empty engine. -/
theorem applyBulk_eq_filter_append (reqs : List BulkIndexRequest)
    (docs : List (String × Restaurant)) :
    applyBulk reqs docs
      = docs.filter (fun d => !(reqs.any (fun r => r.Id == d.1))) ++ applyBulk reqs [] := by
  induction reqs generalizing docs with
  | nil => simp [applyBulk]
  | cons r rs ih =>
    rw [applyBulk_cons, ih (upsert r.Id r.Doc docs), applyBulk_cons, ih (upsert r.Id r.Doc [])]
    simp only [upsert, List.filter_append, List.filter_filter, List.filter_nil, List.nil_append,
      List.append_assoc, List.any_cons]
    congr 1
    apply List.filter_congr
    intro d _
    by_cases hk : d.1 = r.Id
    · simp [hk]
    · have e1 : (d.1 != r.Id) = true := by simp [hk]
      have e2 : (r.Id == d.1) = false := by
        simp only [beq_eq_false_iff_ne, ne_eq]
        exact fun e => hk e.symm
      rw [e1, e2]
      simp

theorem mem_applyBulk (reqs : List BulkIndexRequest) (docs : List (String × Restaurant))
    (d : String × Restaurant) (h : d ∈ applyBulk reqs docs) :
    d ∈ docs ∨ reqs.any (fun r => r.Id == d.1) = true := by
  induction reqs generalizing docs with
  | nil => exact Or.inl h
  | cons r rs ih =>
    rw [applyBulk_cons] at h
    rcases ih _ h with hm | hk
    · simp only [upsert, List.mem_append, List.mem_filter, List.mem_singleton] at hm
      rcases hm with hm | hm
      · exact Or.inl hm.1
      · right
        simp [hm]
    · right
      simp [hk]

theorem applyBulk_idem (reqs : List BulkIndexRequest) (docs : List (String × Restaurant)) :
    applyBulk reqs (applyBulk reqs docs) = applyBulk reqs docs := by
  have hnil : (applyBulk reqs []).filter (fun d => !(reqs.any (fun r => r.Id == d.1))) = [] := by
    rw [List.filter_eq_nil_iff]
    intro d hd
    rcases mem_applyBulk reqs [] d hd with hm | hk
    · simp at hm
    · simp [hk]
  rw [applyBulk_eq_filter_append reqs (applyBulk reqs docs)]
  conv_lhs => rw [applyBulk_eq_filter_append reqs docs]
  rw [List.filter_append, hnil, List.filter_filter, List.append_nil]
  conv_rhs => rw [applyBulk_eq_filter_append reqs docs]
  simp

/-- C9: on the model engine, for records `a` and `b` with the same id,
ingesting `a` and then `b`, in two calls or as two entries of one batch, leaves
exactly one document under that id, and it is `b`; ingesting a batch twice
leaves the engine in the state that ingesting it once leaves. -/
theorem ingest_last_write_wins (a b : Restaurant) (rs : Slice Restaurant) (st : ModelState)
    (h : a.ID = b.ID) :
    docsUnder a.ID (ingest (some [b]) (ingest (some [a]) st)) = [b] ∧
    docsUnder a.ID (ingest (some [a, b]) st) = [b] ∧
    ingest rs (ingest rs st) = ingest rs st := by
  refine ⟨?_, ?_, ?_⟩
  · simp only [ingest_eq, bulkRequests_eq_map, Slice.toList, List.map, applyBulk_cons, docsUnder,
      h]
    rw [show applyBulk [] = fun docs => docs from rfl, filter_key_upsert]
    rfl
  · simp only [ingest_eq, bulkRequests_eq_map, Slice.toList, List.map, applyBulk_cons, docsUnder,
      h]
    rw [show applyBulk [] = fun docs => docs from rfl, filter_key_upsert]
    rfl
  · simp only [ingest_eq, applyBulk_idem]

/-- C9, at two versions of the record r1, in an engine that holds an older one. -/
theorem ingest_last_write_wins_witness :
    pizzaPlace.ID = pizzaPalace.ID ∧ pizzaPlace ≠ pizzaPalace ∧
    docsUnder "r1" (ingest (some [pizzaPalace])
      (ingest (some [pizzaPlace]) { indices := [], docs := [("r1", sushiBar)] })) = [pizzaPalace] ∧
    docsUnder "r1" (ingest (some [pizzaPlace, pizzaPalace])
      { indices := [], docs := [("r1", sushiBar)] }) = [pizzaPalace] ∧
    ingest (some [pizzaPlace, sushiBar, pizzaPalace])
        (ingest (some [pizzaPlace, sushiBar, pizzaPalace])
          { indices := [], docs := [("r1", sushiBar)] })
      = ingest (some [pizzaPlace, sushiBar, pizzaPalace])
          { indices := [], docs := [("r1", sushiBar)] } :=
  ⟨rfl, by decide,
    ingest_last_write_wins pizzaPlace pizzaPalace (some [pizzaPlace, sushiBar, pizzaPalace])
      { indices := [], docs := [("r1", sushiBar)] } rfl⟩

/-! ## The schema step (C10) -/

/-- C10 (amended): at boot the schema step checks once whether the index
"restaurants" exists.  On any engine, it makes no creation call when the check
answers that the index exists, so that the engine is left as the check left
it, and exactly one creation call, carrying the fixed mapping, when the check
answers false.  On the model engine the check
answers that the index exists when the index exists and the check does not
fail, and false when the index is absent or the check fails; an engine that
holds the index is left as it is, and one without it gains the index with the
fixed mapping unless the creation call fails.  The mapping declares nine
fields: delivery_area as geo_shape with quadtree and precision 1m, rating and
price as integer, open as boolean, and id, name, url, image_url and address as
text.  When no call fails, running the step twice leaves the engine in the
state that running it once leaves. -/
theorem bootSchema_creates_once (eng : ModelState) (faults : List Bool) :
    (∀ (σ : Type) (IndexExists : IndexExistsDo σ) (CreateIndex : CreateIndexDo σ) (s : σ),
      (ensureIndex IndexExists CreateIndex s).calls
        = if (IndexExists "restaurants" s).1.1 = true then
            [EngineCall.indexExists "restaurants"]
          else [EngineCall.indexExists "restaurants",
                EngineCall.createIndex "restaurants" mapping]) ∧
    (∀ (σ : Type) (IndexExists : IndexExistsDo σ) (CreateIndex : CreateIndexDo σ) (s : σ),
      (ensureIndex IndexExists CreateIndex s).state
        = if (IndexExists "restaurants" s).1.1 = true then (IndexExists "restaurants" s).2
          else (CreateIndex "restaurants" mapping (IndexExists "restaurants" s).2).2) ∧
    (bootSchema { engine := eng, faults := faults }).calls
      = (if (nextFault faults).1 = false ∧ indexPresent "restaurants" eng = true then
          [EngineCall.indexExists "restaurants"]
        else [EngineCall.indexExists "restaurants",
              EngineCall.createIndex "restaurants" mapping]) ∧
    (bootSchema { engine := eng, faults := faults }).state.engine
      = (if indexPresent "restaurants" eng = true ∨ (nextFault (nextFault faults).2).1 = true
          then eng
        else { eng with indices := eng.indices ++ [("restaurants", mapping)] }) ∧
    mapping = renderMapping mappingProperties ∧
    mappingProperties.lookup "delivery_area"
      = some { type := "geo_shape", tree := some "quadtree", precision := some "1m" } ∧
    mappedType "rating" = some "integer" ∧
    mappedType "price" = some "integer" ∧
    mappedType "open" = some "boolean" ∧
    (mappingProperties.filter (fun p => p.2.type == "text")).map (fun p => p.1)
      = ["id", "name", "url", "image_url", "address"] ∧
    mappingProperties.map (fun p => p.1)
      = ["id", "name", "url", "image_url", "address", "open", "rating", "price",
         "delivery_area"] ∧
    (bootSchema (bootSchema { engine := eng, faults := [] }).state).state
      = (bootSchema { engine := eng, faults := [] }).state := by
  have hany : ∀ (σ : Type) (IndexExists : IndexExistsDo σ) (CreateIndex : CreateIndexDo σ)
      (s : σ), (ensureIndex IndexExists CreateIndex s).calls
        = if (IndexExists "restaurants" s).1.1 = true then
            [EngineCall.indexExists "restaurants"]
          else [EngineCall.indexExists "restaurants",
                EngineCall.createIndex "restaurants" mapping] := by
    intro σ IndexExists CreateIndex s
    unfold ensureIndex
    cases hfound : (IndexExists esIndex s).1.1 <;> simp [hfound, esIndex] <;> simp_all [esIndex]
  have hafter : ∀ (σ : Type) (IndexExists : IndexExistsDo σ) (CreateIndex : CreateIndexDo σ)
      (s : σ), (ensureIndex IndexExists CreateIndex s).state
        = if (IndexExists "restaurants" s).1.1 = true then (IndexExists "restaurants" s).2
          else (CreateIndex "restaurants" mapping (IndexExists "restaurants" s).2).2 := by
    intro σ IndexExists CreateIndex s
    by_cases hfound : (IndexExists "restaurants" s).1.1 = true
    · simp only [ensureIndex, esIndex, hfound, Bool.not_true, Bool.false_eq_true, if_false,
        if_true]
    · have hf : (IndexExists "restaurants" s).1.1 = false := by simpa using hfound
      simp only [ensureIndex, esIndex, hf, Bool.not_false, Bool.false_eq_true, if_false,
        if_true]
  have hcalls : (bootSchema { engine := eng, faults := faults }).calls
      = (if (nextFault faults).1 = false ∧ indexPresent "restaurants" eng = true then
          [EngineCall.indexExists "restaurants"]
        else [EngineCall.indexExists "restaurants",
              EngineCall.createIndex "restaurants" mapping]) := by
    rw [bootSchema, hany]
    simp only [modelIndexExists]
    cases hf : (nextFault faults).1 <;> cases hp : indexPresent "restaurants" eng <;>
      simp [hf, hp]
  have hstate : ∀ (e : ModelState) (fs : List Bool),
      (bootSchema { engine := e, faults := fs }).state.engine
        = (if indexPresent "restaurants" e = true ∨ (nextFault (nextFault fs).2).1 = true
            then e
          else { e with indices := e.indices ++ [("restaurants", mapping)] }) := by
    intro e fs
    simp only [bootSchema, ensureIndex, modelIndexExists, modelCreateIndex, esIndex]
    cases hf : (nextFault fs).1 <;> cases hp : indexPresent "restaurants" e <;>
      cases hg : (nextFault (nextFault fs).2).1 <;> simp [hf, hp, hg]
  refine ⟨hany, hafter, hcalls, hstate eng faults, mapping_eq_renderMapping, by decide, by decide, by decide,
    by decide, by decide, by decide, ?_⟩
  have hfull : ∀ e : ModelState, (bootSchema { engine := e, faults := [] }).state
      = { engine := (if indexPresent "restaurants" e = true then e
                     else { e with indices := e.indices ++ [("restaurants", mapping)] }),
          faults := [] } := by
    intro e
    simp only [bootSchema, ensureIndex, modelIndexExists, modelCreateIndex, esIndex, nextFault]
    cases hp : indexPresent "restaurants" e <;> simp [hp]
  have hadded : indexPresent "restaurants"
      { eng with indices := eng.indices ++ [("restaurants", mapping)] } = true := by
    simp [indexPresent]
  rw [hfull eng]
  cases hp : indexPresent "restaurants" eng
  · simp only [Bool.false_eq_true, if_false]
    rw [hfull, hadded]
    rfl
  · simp only [if_true]
    rw [hfull, hp]
    rfl

/-- C10, counterexample.  The mapping that the creation call carries has no
entry for `tags`, a field of `Restaurant` that is none of delivery_area,
rating, price and open: it is not declared as text.  On an engine that holds
the index, a check that fails is followed by a creation call.  On an engine
without the index whose creation call fails, a second run creates the index
that the first run did not: twice is not once. -/
theorem mapping_leaves_tags_undeclared :
    (bootSchema { engine := { indices := [], docs := [] }, faults := [] }).calls
      = [EngineCall.indexExists "restaurants",
         EngineCall.createIndex "restaurants" (renderMapping mappingProperties)] ∧
    "tags" ∈ restaurantFields ∧
    mappedType "tags" = none ∧
    ¬ (∀ f ∈ restaurantFields, f ∉ ["delivery_area", "rating", "price", "open"] →
        mappedType f = some "text") ∧
    indexPresent "restaurants" { indices := [("restaurants", mapping)], docs := [] } = true ∧
    (bootSchema { engine := { indices := [("restaurants", mapping)], docs := [] },
                  faults := [true] }).calls
      = [EngineCall.indexExists "restaurants",
         EngineCall.createIndex "restaurants" mapping] ∧
    (bootSchema { engine := { indices := [], docs := [] }, faults := [false, true] }).state.engine
      = { indices := [], docs := [] } ∧
    (bootSchema (bootSchema { engine := { indices := [], docs := [] },
                              faults := [false, true] }).state).state.engine
      = { indices := [("restaurants", mapping)], docs := [] } := by
  refine ⟨?_, by decide, by decide, ?_, rfl, rfl, rfl, rfl⟩
  · rw [← mapping_eq_renderMapping]
    rfl
  · intro hall
    exact absurd (hall "tags" (by decide) (by decide)) (by decide)

end GeoSearch
